import Mathlib

/-!
Verification of the monitoring / retraining-trigger core of the ml-poc
repository, as a shallow embedding in Lean 4.

Python floats are modelled as rationals (ℚ), Python ints as ℤ/ℕ, SQLite
tables as Lean lists of row structures, and the SQLite AUTOINCREMENT id
counter as an explicit `next_id` field.  Irrational / external numeric
primitives (numpy sqrt, scipy ks_2samp, numpy random.normal) are passed as
explicit function parameters, so every theorem quantifies over them and any
property proved holds for the real implementations.  Wall-clock timestamps
(`datetime.now`, SQL CURRENT_TIMESTAMP) and human-readable message strings
built by float formatting are not observable by any property below and are
omitted from row structures where unused.
-/

/-! ## Retraining trigger (src/monitoring/retraining_trigger.py) -/

/-- Configuration state of `RetaininingTrigger.__init__` (name as in source,
keeping the spelling used in the source). -/
structure RetaininingTrigger where
  feedback_threshold : ℤ
  drift_threshold : ℚ
  accuracy_drop_threshold : ℚ
  lookback_days : ℤ

/-- The fields of the dictionary returned by `RetaininingTrigger.evaluate`
that are observable by the claims (reason strings are float-formatted text
and are omitted). -/
structure EvaluateResult where
  should_retrain : Bool
  conditions_met : ℕ
  confidence : ℚ
  accuracy_drop : ℚ
  condition_feedback : Bool
  condition_drift : Bool
  condition_accuracy : Bool

/-- Embeds `RetaininingTrigger._calculate_confidence`. -/
def RetaininingTrigger.calc_confidence (self : RetaininingTrigger)
    (feedback_count : ℤ) (drift_score accuracy_drop : ℚ) : ℚ :=
  let feedback_score := min ((feedback_count : ℚ) / (self.feedback_threshold : ℚ)) 1
  let drift_score_norm := min (drift_score / self.drift_threshold) 1
  let accuracy_score := min (accuracy_drop / self.accuracy_drop_threshold) 1
  min ((feedback_score + drift_score_norm + accuracy_score) / 3) 1

/-- Embeds `RetaininingTrigger.evaluate`. -/
def RetaininingTrigger.evaluate (self : RetaininingTrigger) (feedback_count : ℤ)
    (drift_score recent_accuracy baseline_accuracy : ℚ) : EvaluateResult :=
  let accuracy_drop : ℚ :=
    if 0 < baseline_accuracy then 1 - recent_accuracy / baseline_accuracy else 0
  let condition_feedback : Bool := decide (self.feedback_threshold ≤ feedback_count)
  let condition_drift : Bool := decide (self.drift_threshold ≤ drift_score)
  let condition_accuracy : Bool := decide (self.accuracy_drop_threshold ≤ accuracy_drop)
  let conditions_met : ℕ :=
    (if condition_feedback then 1 else 0) + (if condition_drift then 1 else 0) +
      (if condition_accuracy then 1 else 0)
  let should_retrain : Bool := decide (2 ≤ conditions_met)
  { should_retrain := should_retrain
    conditions_met := conditions_met
    confidence := self.calc_confidence feedback_count drift_score accuracy_drop
    accuracy_drop := accuracy_drop
    condition_feedback := condition_feedback
    condition_drift := condition_drift
    condition_accuracy := condition_accuracy }

/-- Spec-side predicate: at least 2 of 3 conditions hold (majority vote). -/
def atLeastTwo (a b c : Prop) : Prop := (a ∧ b) ∨ (a ∧ c) ∨ (b ∧ c)

/-- C1: `RetaininingTrigger.evaluate` returns `should_retrain = true` iff at
least 2 of the 3 threshold conditions hold, where `accuracy_drop` is
`1 - recent_accuracy/baseline_accuracy` when `baseline_accuracy > 0` and `0`
otherwise; universally quantified, so all 8 condition combinations are
covered. -/
theorem evaluate_majority_rule (self : RetaininingTrigger) (feedback_count : ℤ)
    (drift_score recent_accuracy baseline_accuracy : ℚ) :
    (self.evaluate feedback_count drift_score recent_accuracy baseline_accuracy).should_retrain
        = true ↔
      atLeastTwo (self.feedback_threshold ≤ feedback_count)
        (self.drift_threshold ≤ drift_score)
        (self.accuracy_drop_threshold ≤
          (if 0 < baseline_accuracy then 1 - recent_accuracy / baseline_accuracy else 0)) := by
  by_cases h1 : self.feedback_threshold ≤ feedback_count <;>
    by_cases h2 : self.drift_threshold ≤ drift_score <;>
      by_cases h3 : self.accuracy_drop_threshold ≤
          (if 0 < baseline_accuracy then 1 - recent_accuracy / baseline_accuracy else 0) <;>
        simp [RetaininingTrigger.evaluate, atLeastTwo, h1, h2, h3]

/-- Closed witness for C1 at a concrete input (feedback and drift conditions
hold, accuracy condition does not: 2 of 3 ⇒ retrain). -/
theorem evaluate_majority_rule_witness :
    (RetaininingTrigger.evaluate ⟨50, 3/10, 1/20, 7⟩ 60 (35/100) (87/100) (88/100)).should_retrain
        = true ↔
      atLeastTwo ((50 : ℤ) ≤ 60) ((3/10 : ℚ) ≤ 35/100)
        ((1/20 : ℚ) ≤ (if (0 : ℚ) < 88/100 then 1 - (87/100 : ℚ) / (88/100) else 0)) :=
  evaluate_majority_rule ⟨50, 3/10, 1/20, 7⟩ 60 (35/100) (87/100) (88/100)

/-! ## Drift detector (src/monitoring/drift_detector.py) -/

/-- Embeds `np.mean` on a list of rationals (call sites guard against the empty
list, where numpy would give NaN). -/
def listMean (xs : List ℚ) : ℚ := xs.sum / xs.length

/-- The population variance `mean((x - mean)²)`; `np.std` is its square
root, taken through the `sqrt` oracle parameter below. -/
def listVar (xs : List ℚ) : ℚ :=
  ((xs.map fun x => (x - listMean xs) ^ 2).sum) / xs.length

/-- Embeds `np.max` on a list, with the `if len > 0 else 0` convention of the source. -/
def listMax (xs : List ℚ) : ℚ :=
  match xs with
  | [] => 0
  | x :: rest => rest.foldl max x

/-- Mutable state of `DriftDetector`: thresholds plus the optional baseline
(`baseline_mean`/`baseline_std` are always set together by `set_baseline`,
so they are modelled as one optional pair). -/
structure DriftDetector where
  z_score_threshold : ℚ
  ks_test_threshold : ℚ
  min_samples : ℕ
  baseline : Option (ℚ × ℚ)

/-- Result dictionary of `DriftDetector.detect_anomalies_zscore`. -/
structure AnomalyResult where
  has_anomalies : Bool
  anomaly_count : ℕ
  anomaly_indices : List ℕ
  anomaly_values : List ℚ
  z_scores : List ℚ
  max_z_score : ℚ
  mean : ℚ
  std : ℚ
  threshold : ℚ

/-- Embeds `DriftDetector.detect_anomalies_zscore`.  Here `sqrt` stands for the numpy
floating-point square root (used only inside `np.std`); every theorem below
quantifies over it. -/
def DriftDetector.detect_anomalies_zscore (self : DriftDetector) (sqrt : ℚ → ℚ)
    (values : List ℚ) (use_baseline : Bool) : AnomalyResult :=
  if values.length < 1 then
    { has_anomalies := false, anomaly_count := 0, anomaly_indices := [],
      anomaly_values := [], z_scores := [], max_z_score := 0, mean := 0,
      std := 0, threshold := self.z_score_threshold }
  else
    let ms : ℚ × ℚ :=
      if use_baseline && self.baseline.isSome then self.baseline.getD (0, 0)
      else (listMean values, sqrt (listVar values))
    let mean := ms.1
    let std := if ms.2 = 0 then 1 / 10 ^ 10 else ms.2
    let z_scores := values.map fun x => |(x - mean) / std|
    let anomaly_indices :=
      (List.range values.length).filter fun i =>
        decide (self.z_score_threshold < z_scores.getD i 0)
    { has_anomalies := z_scores.any fun z => decide (self.z_score_threshold < z)
      anomaly_count := anomaly_indices.length
      anomaly_indices := anomaly_indices
      anomaly_values := anomaly_indices.map fun i => values.getD i 0
      z_scores := z_scores
      max_z_score := listMax z_scores
      mean := mean
      std := std
      threshold := self.z_score_threshold }

/-- Result dictionary of `DriftDetector.detect_drift_ks_test`. -/
structure KSResult where
  has_drift : Bool
  ks_statistic : ℚ
  p_value : ℚ
  threshold : ℚ
  current_mean : ℚ
  baseline_mean : ℚ
  mean_change_pct : ℚ
  error : Option String

/-- Embeds `DriftDetector.detect_drift_ks_test`.  Here `ks` stands for
`scipy.stats.ks_2samp` (returning statistic and p-value) and `randn` for
`np.random.normal(mean, std, n)`; both are oracle parameters the theorems
quantify over. -/
def DriftDetector.detect_drift_ks_test (self : DriftDetector)
    (ks : List ℚ → List ℚ → ℚ × ℚ) (randn : ℚ → ℚ → ℕ → List ℚ)
    (current_values : List ℚ) (baseline_values : Option (List ℚ)) : KSResult :=
  if current_values.length < self.min_samples then
    { has_drift := false, ks_statistic := 0, p_value := 1,
      threshold := self.ks_test_threshold,
      current_mean := if current_values = [] then 0 else listMean current_values,
      baseline_mean := 0, mean_change_pct := 0,
      error := some ("Insufficient samples: " ++ toString current_values.length
        ++ " < " ++ toString self.min_samples) }
  else
    let chosen : Option (List ℚ) :=
      match baseline_values, self.baseline with
      | none, none => none
      | none, some p => some (randn p.1 p.2 self.min_samples)
      | some b, _ => some b
    match chosen with
    | none =>
      { has_drift := false, ks_statistic := 0, p_value := 1,
        threshold := self.ks_test_threshold,
        current_mean := listMean current_values, baseline_mean := 0,
        mean_change_pct := 0, error := some "No baseline set for comparison" }
    | some baseline =>
      let kp := ks current_values baseline
      let current_mean := listMean current_values
      let baseline_mean := listMean baseline
      let mean_change_pct :=
        if baseline_mean ≠ 0 then (current_mean - baseline_mean) / baseline_mean * 100 else 0
      { has_drift := decide (kp.2 < self.ks_test_threshold)
        ks_statistic := kp.1
        p_value := kp.2
        threshold := self.ks_test_threshold
        current_mean := current_mean
        baseline_mean := baseline_mean
        mean_change_pct := mean_change_pct
        error := none }

/-- Folding `max` over an all-zero list of rationals starting from 0 stays 0. -/
theorem foldl_max_zero : ∀ (l : List ℚ) (a : ℚ), (∀ x ∈ l, x = 0) → a = 0 →
    l.foldl max a = 0 := by
  intro l
  induction l with
  | nil => intro a _ ha; simpa using ha
  | cons y t ih =>
    intro a h ha
    have hy : y = 0 := h y (by simp)
    have : max a y = 0 := by rw [ha, hy]; simp
    exact ih (max a y) (fun x hx => h x (by simp [hx])) this

/-- Evaluating `listMax` on an all-zero list is 0. -/
theorem listMax_zero (l : List ℚ) (h : ∀ x ∈ l, x = 0) : listMax l = 0 := by
  cases l with
  | nil => rfl
  | cons y t =>
    exact foldl_max_zero t y (fun x hx => h x (by simp [hx])) (h y (by simp))

/-- Evaluating `listMean` on a nonempty constant list is that constant. -/
theorem listMean_const (xs : List ℚ) (v : ℚ) (hne : xs ≠ [])
    (hconst : ∀ x ∈ xs, x = v) : listMean xs = v := by
  have hsum : xs.sum = xs.length • v := List.sum_eq_card_nsmul xs v hconst
  have hlen : (xs.length : ℚ) ≠ 0 := by
    have h0 : xs.length ≠ 0 := fun h => hne (List.length_eq_zero.mp h)
    exact_mod_cast h0
  rw [listMean, hsum, nsmul_eq_mul, mul_comm, mul_div_assoc, div_self hlen, mul_one]

/-- Evaluating `listVar` on a nonempty constant list is 0. -/
theorem listVar_const (xs : List ℚ) (v : ℚ) (hne : xs ≠ [])
    (hconst : ∀ x ∈ xs, x = v) : listVar xs = 0 := by
  have hz : (xs.map fun x => (x - listMean xs) ^ 2).sum = 0 := by
    apply List.sum_eq_zero
    intro y hy
    rcases List.mem_map.mp hy with ⟨x, hx, rfl⟩
    rw [hconst x hx, listMean_const xs v hne hconst]
    ring
  rw [listVar, hz, zero_div]

/-- Counterexample to C5 as stated: with a baseline already set (mean 0,
std 1) the detector flags every point of the constant list `[100, 100]` as
anomalous, so "for every detector state" fails. -/
theorem zscore_constant_counterexample :
    ¬ (((⟨2, 1/20, 10, some (0, 1)⟩ : DriftDetector).detect_anomalies_zscore
          (fun _ => 0) [100, 100] true).has_anomalies = false ∧
       ((⟨2, 1/20, 10, some (0, 1)⟩ : DriftDetector).detect_anomalies_zscore
          (fun _ => 0) [100, 100] true).max_z_score = 0) := by
  intro h
  have := h.1
  norm_num [DriftDetector.detect_anomalies_zscore] at this

/-- C5 (amended): when no baseline is in effect (either `use_baseline` is
false or none was set), the z-score threshold is nonnegative, and `sqrt`
agrees with real square root at 0, every nonempty constant list yields
`has_anomalies = false`, `max_z_score = 0`, and the standard deviation
floored to `1e-10` instead of a division by zero. -/
theorem zscore_constant_amended (self : DriftDetector) (sqrt : ℚ → ℚ)
    (xs : List ℚ) (v : ℚ) (use_baseline : Bool)
    (hsqrt : sqrt 0 = 0)
    (hthr : 0 ≤ self.z_score_threshold)
    (hne : xs ≠ [])
    (hconst : ∀ x ∈ xs, x = v)
    (hnb : use_baseline = false ∨ self.baseline = none) :
    (self.detect_anomalies_zscore sqrt xs use_baseline).has_anomalies = false ∧
    (self.detect_anomalies_zscore sqrt xs use_baseline).max_z_score = 0 ∧
    (self.detect_anomalies_zscore sqrt xs use_baseline).std = 1 / 10 ^ 10 := by
  have hlen : ¬ xs.length < 1 := by
    have := List.length_pos.mpr hne
    omega
  have hcond : (use_baseline && self.baseline.isSome) = false := by
    rcases hnb with h | h <;> simp [h]
  have hvar : sqrt (listVar xs) = 0 := by
    rw [listVar_const xs v hne hconst, hsqrt]
  have hz : ∀ z ∈ xs.map (fun x => |(x - listMean xs) / (1 / 10 ^ 10)|), z = 0 := by
    intro z hzm
    rcases List.mem_map.mp hzm with ⟨x, hx, rfl⟩
    rw [hconst x hx, listMean_const xs v hne hconst]
    simp
  refine ⟨?_, ?_, ?_⟩
  · simp only [DriftDetector.detect_anomalies_zscore, if_neg hlen, hcond,
      Bool.false_eq_true, if_false, hvar, if_pos rfl]
    rw [List.any_eq_false]
    intro z hzm
    rw [hz z hzm]
    simp [not_lt, hthr]
  · simp only [DriftDetector.detect_anomalies_zscore, if_neg hlen, hcond,
      Bool.false_eq_true, if_false, hvar, if_pos rfl]
    exact listMax_zero _ hz
  · simp only [DriftDetector.detect_anomalies_zscore, if_neg hlen, hcond,
      Bool.false_eq_true, if_false, hvar, if_pos rfl]
    simp

/-- Closed witness for C5 (amended) on the constant list `[5, 5, 5]` with no
baseline set. -/
theorem zscore_constant_amended_witness :
    ((fun _ => (0 : ℚ)) (0 : ℚ) = 0 ∧ (0 : ℚ) ≤ 2 ∧ ([5, 5, 5] : List ℚ) ≠ []) ∧
    (((⟨2, 1/20, 10, none⟩ : DriftDetector).detect_anomalies_zscore
        (fun _ => 0) [5, 5, 5] true).has_anomalies = false ∧
     ((⟨2, 1/20, 10, none⟩ : DriftDetector).detect_anomalies_zscore
        (fun _ => 0) [5, 5, 5] true).max_z_score = 0 ∧
     ((⟨2, 1/20, 10, none⟩ : DriftDetector).detect_anomalies_zscore
        (fun _ => 0) [5, 5, 5] true).std = 1 / 10 ^ 10) :=
  ⟨⟨rfl, by norm_num, by simp⟩,
    zscore_constant_amended ⟨2, 1/20, 10, none⟩ (fun _ => 0) [5, 5, 5] 5 true rfl
      (by norm_num) (by simp) (by intro x hx; simpa using hx) (Or.inr rfl)⟩

/-- C6: `detect_drift_ks_test` fails softly — whenever fewer than
`min_samples` current values are supplied, or no baseline is supplied and
none was previously set, it returns `has_drift = false` with a populated
`error` field (and, being total for every `ks`/`randn` oracle, never
raises). -/
theorem ks_test_fails_softly (self : DriftDetector)
    (ks : List ℚ → List ℚ → ℚ × ℚ) (randn : ℚ → ℚ → ℕ → List ℚ)
    (current_values : List ℚ) (baseline_values : Option (List ℚ))
    (h : current_values.length < self.min_samples ∨
      (baseline_values = none ∧ self.baseline = none)) :
    (self.detect_drift_ks_test ks randn current_values baseline_values).has_drift
        = false ∧
    (self.detect_drift_ks_test ks randn current_values baseline_values).error.isSome
        = true := by
  by_cases hlen : current_values.length < self.min_samples
  · simp [DriftDetector.detect_drift_ks_test, hlen]
  · rcases h with h | ⟨hb, hs⟩
    · exact absurd h hlen
    · subst hb
      simp [DriftDetector.detect_drift_ks_test, hlen, hs]

/-- Closed witness for C6: two samples against `min_samples = 10`, arbitrary
oracles. -/
theorem ks_test_fails_softly_witness :
    (([1, 2] : List ℚ).length < 10 ∨
      ((none : Option (List ℚ)) = none ∧
        ((⟨2, 1/20, 10, none⟩ : DriftDetector).baseline = none))) ∧
    ((DriftDetector.detect_drift_ks_test ⟨2, 1/20, 10, none⟩ (fun _ _ => (0, 0))
        (fun _ _ _ => []) [1, 2] none).has_drift = false ∧
     (DriftDetector.detect_drift_ks_test ⟨2, 1/20, 10, none⟩ (fun _ _ => (0, 0))
        (fun _ _ _ => []) [1, 2] none).error.isSome = true) :=
  ⟨Or.inl (by decide),
    ks_test_fails_softly ⟨2, 1/20, 10, none⟩ (fun _ _ => (0, 0)) (fun _ _ _ => [])
      [1, 2] none (Or.inl (by decide))⟩

/-! ## Alert manager (src/monitoring/alerts.py) -/

/-- Result dictionary of `DriftDetector.detect_trend_drift` (the alert
manager reads `has_trend_drift`, `trend_direction` and `trend_change_pct`
from it). -/
structure TrendResult where
  has_trend_drift : Bool
  recent_mean : ℚ
  older_mean : ℚ
  trend_direction : String
  trend_change_pct : ℚ
  slope : ℚ
  error : Option String

/-- The dictionary produced by `DriftDetector.check_all_drifts` and consumed
by `AlertManager.create_alert_from_drift` (the wall-clock `timestamp` field
is omitted). -/
structure DriftResults where
  anomalies : AnomalyResult
  distribution_drift : KSResult
  trend_drift : TrendResult
  overall_drift_detected : Bool

/-- Threshold state of `AlertManager.__init__` (the `db` handle is modelled
separately as `PredictionsDB`; `create_alert_from_drift` itself never
touches it). -/
structure AlertManager where
  z_score_threshold : ℚ
  ks_p_value_threshold : ℚ
  trend_change_threshold : ℚ
  anomaly_alert_threshold : ℕ

/-- The alert dictionary returned by `create_alert_from_drift` (the
float-formatted `message` text and the wall-clock `created_at` are
omitted). -/
structure Alert where
  alert_type : String
  severity : String
  details : DriftResults
  recommendation : String
  prediction_date : String
  status : String

/-- Embeds `AlertManager._determine_alert_type`. -/
def AlertManager.determine_alert_type (self : AlertManager) (dr : DriftResults) : String :=
  let sig_anomaly : Bool :=
    dr.anomalies.has_anomalies &&
      decide (self.anomaly_alert_threshold ≤ dr.anomalies.anomaly_count)
  let sig_distribution : Bool := dr.distribution_drift.has_drift
  let sig_trend : Bool := dr.trend_drift.has_trend_drift
  let signals : ℕ :=
    (if sig_anomaly then 1 else 0) + (if sig_distribution then 1 else 0) +
      (if sig_trend then 1 else 0)
  let primary_type : Option String :=
    if sig_anomaly then some "anomaly"
    else if sig_distribution then some "distribution_drift"
    else if sig_trend then some "trend_drift"
    else none
  if 2 ≤ signals then "multi_signal"
  else
    match primary_type with
    | some t => t
    | none => "anomaly"

/-- Embeds `AlertManager._calculate_severity` (thresholds 3.0, 0.01 and 15 are
literals in the source, not configuration). -/
def AlertManager.calculate_severity (_self : AlertManager) (dr : DriftResults)
    (alert_type : String) : String :=
  if alert_type = "multi_signal" then "critical"
  else if 3 < dr.anomalies.max_z_score then "critical"
  else if dr.distribution_drift.p_value < 1 / 100 then "critical"
  else if 15 < |dr.distribution_drift.mean_change_pct| then "warning"
  else if 15 < |dr.trend_drift.trend_change_pct| then "warning"
  else "warning"

/-- Embeds `AlertManager._get_recommendation` (the `RECOMMENDATIONS` lookup with
its default). -/
def AlertManager.get_recommendation (alert_type : String) : String :=
  if alert_type = "anomaly" then
    "Check data quality and input features for the anomalous prediction"
  else if alert_type = "distribution_drift" then
    "Consider model retraining with updated data distribution"
  else if alert_type = "trend_drift" then
    "Monitor upcoming predictions closely for further degradation"
  else if alert_type = "multi_signal" then
    "Immediate action required - review model performance and input data"
  else "Review model performance"

/-- Embeds `AlertManager.create_alert_from_drift`. -/
def AlertManager.create_alert_from_drift (self : AlertManager) (dr : DriftResults)
    (prediction_date : String) : Option Alert :=
  if !dr.overall_drift_detected then none
  else
    let alert_type := self.determine_alert_type dr
    some { alert_type := alert_type
           severity := self.calculate_severity dr alert_type
           details := dr
           recommendation := AlertManager.get_recommendation alert_type
           prediction_date := prediction_date
           status := "active" }

/-- The default `AlertManager` thresholds from `__init__`. -/
def amDefault : AlertManager := ⟨2, 1/20, 10, 2⟩

/-- Drift results with `overall_drift_detected = true` driven solely by a
single anomaly whose count (1) is below the alert threshold (2): zero
classification signals. -/
def drSubThreshold : DriftResults :=
  { anomalies := ⟨true, 1, [0], [400], [5/2], 5/2, 250, 60, 2⟩
    distribution_drift := ⟨false, 0, 87/100, 1/20, 0, 0, 0, none⟩
    trend_drift := ⟨false, 0, 0, "stable", 0, 0, none⟩
    overall_drift_detected := true }

/-- Counterexample to C2 as stated: with zero classification signals but
`overall_drift_detected = true` (anomaly count 1 below threshold 2),
`create_alert_from_drift` does NOT return "no alert" — the fallback branch (marked should-not-happen
in the source) returns an `anomaly`-typed alert. -/
theorem create_alert_zero_signals_counterexample :
    ¬ (amDefault.create_alert_from_drift drSubThreshold "2025-11-14" = none) := by
  simp [AlertManager.create_alert_from_drift, drSubThreshold]

/-- C2 (amended): `create_alert_from_drift` returns no alert exactly when
`overall_drift_detected` is false (and only then is nothing handed to the
caller to persist); when `overall_drift_detected` is true with zero
classification signals, a fallback alert with `alert_type = "anomaly"` is
produced instead of "no alert". -/
theorem create_alert_none_iff (self : AlertManager) (dr : DriftResults)
    (date : String) :
    (self.create_alert_from_drift dr date = none ↔
      dr.overall_drift_detected = false) ∧
    (dr.overall_drift_detected = true →
      (dr.anomalies.has_anomalies &&
        decide (self.anomaly_alert_threshold ≤ dr.anomalies.anomaly_count)) = false →
      dr.distribution_drift.has_drift = false →
      dr.trend_drift.has_trend_drift = false →
      (self.create_alert_from_drift dr date).map Alert.alert_type = some "anomaly") := by
  constructor
  · cases hov : dr.overall_drift_detected <;>
      simp [AlertManager.create_alert_from_drift, hov]
  · intro hov ha hd ht
    simp [AlertManager.create_alert_from_drift, AlertManager.determine_alert_type,
      hov, ha, hd, ht]

/-- Closed witness for C2 (amended) at the sub-threshold-anomaly input. -/
theorem create_alert_none_iff_witness :
    (drSubThreshold.overall_drift_detected = true) ∧
    (amDefault.create_alert_from_drift drSubThreshold "2025-11-14").map
        Alert.alert_type = some "anomaly" :=
  ⟨rfl, (create_alert_none_iff amDefault drSubThreshold "2025-11-14").2 rfl
    (by decide) rfl rfl⟩

/-- Drift results where two of the `has*` flags are true but the anomaly
count (1) is below the alert threshold, so only one classification signal
fires. -/
def drTwoFlagsOneSignal : DriftResults :=
  { anomalies := ⟨true, 1, [0], [400], [5/2], 5/2, 250, 60, 2⟩
    distribution_drift := ⟨true, 1/2, 3/100, 1/20, 280, 250, 12, none⟩
    trend_drift := ⟨false, 0, 0, "stable", 0, 0, none⟩
    overall_drift_detected := true }

/-- Counterexample to C3 as stated: two of the three `has*` flags are true
(`has_anomalies`, `has_drift`) yet the produced alert is typed
`distribution_drift`, not `multi_signal`, because the anomaly signal also
requires `anomaly_count ≥ anomaly_alert_threshold`. -/
theorem multi_signal_flags_counterexample :
    (drTwoFlagsOneSignal.anomalies.has_anomalies = true ∧
      drTwoFlagsOneSignal.distribution_drift.has_drift = true) ∧
    (amDefault.create_alert_from_drift drTwoFlagsOneSignal "2025-11-14").map
        Alert.alert_type ≠ some "multi_signal" := by
  refine ⟨⟨rfl, rfl⟩, ?_⟩
  simp [AlertManager.create_alert_from_drift, AlertManager.determine_alert_type,
    drTwoFlagsOneSignal, amDefault]

/-- C3 (amended): a produced alert has `alert_type = "multi_signal"` iff at
least 2 of the three classification signals hold, where the anomaly signal
is `has_anomalies ∧ anomaly_count ≥ anomaly_alert_threshold` (not the bare
`has_anomalies` flag); at most one alert is produced per drift result (the
return type is a single optional alert). -/
theorem multi_signal_iff (self : AlertManager) (dr : DriftResults) (date : String) :
    (self.create_alert_from_drift dr date).map Alert.alert_type
        = some "multi_signal" ↔
      dr.overall_drift_detected = true ∧
        atLeastTwo
          (dr.anomalies.has_anomalies = true ∧
            self.anomaly_alert_threshold ≤ dr.anomalies.anomaly_count)
          (dr.distribution_drift.has_drift = true)
          (dr.trend_drift.has_trend_drift = true) := by
  cases hov : dr.overall_drift_detected
  · simp [AlertManager.create_alert_from_drift, hov, atLeastTwo]
  · by_cases ha : dr.anomalies.has_anomalies = true <;>
      by_cases hc : self.anomaly_alert_threshold ≤ dr.anomalies.anomaly_count <;>
        by_cases hd : dr.distribution_drift.has_drift = true <;>
          by_cases ht : dr.trend_drift.has_trend_drift = true <;>
            simp [AlertManager.create_alert_from_drift,
              AlertManager.determine_alert_type, hov, ha, hc, hd, ht, atLeastTwo]

/-- Drift results with all three classification signals firing. -/
def drAllSignals : DriftResults :=
  { anomalies := ⟨true, 4, [0, 1, 2, 3], [400, 401, 402, 403], [31/10], 31/10, 250, 60, 2⟩
    distribution_drift := ⟨true, 1/2, 1/100, 1/20, 280, 250, 205/10, none⟩
    trend_drift := ⟨true, 280, 250, "up", 152/10, 3/2, none⟩
    overall_drift_detected := true }

/-- Closed witness for C3 (amended): all three signals fire and the alert is
typed `multi_signal`. -/
theorem multi_signal_iff_witness :
    (amDefault.create_alert_from_drift drAllSignals "2025-11-14").map
        Alert.alert_type = some "multi_signal" :=
  (multi_signal_iff amDefault drAllSignals "2025-11-14").mpr
    ⟨rfl, Or.inl ⟨⟨rfl, by decide⟩, rfl⟩⟩

/-- Spec-side severity rule, written as C4 states it: first-match-wins
precedence multi_signal → critical, max z-score > 3 → critical, p-value <
0.01 → critical, |mean change %| > 15 or |trend change %| > 15 → warning,
default warning. -/
def severity_spec (dr : DriftResults) (alert_type : String) : String :=
  if alert_type = "multi_signal" then "critical"
  else if 3 < dr.anomalies.max_z_score then "critical"
  else if dr.distribution_drift.p_value < 1 / 100 then "critical"
  else if 15 < |dr.distribution_drift.mean_change_pct| ∨
      15 < |dr.trend_drift.trend_change_pct| then "warning"
  else "warning"

/-- Severity computation of the source agrees with the precedence rule of
the spec for every alert type string. -/
theorem calculate_severity_eq_spec (self : AlertManager) (dr : DriftResults)
    (t : String) : self.calculate_severity dr t = severity_spec dr t := by
  unfold AlertManager.calculate_severity severity_spec
  split_ifs <;> rfl

/-- C4: every alert produced by `create_alert_from_drift` carries exactly
the severity given by the first-match-wins precedence stated by the claim
(`severity_spec`). -/
theorem alert_severity_precedence (self : AlertManager) (dr : DriftResults)
    (date : String) :
    (self.create_alert_from_drift dr date).map Alert.severity =
      (self.create_alert_from_drift dr date).map
        (fun a => severity_spec dr a.alert_type) := by
  cases hov : dr.overall_drift_detected <;>
    simp [AlertManager.create_alert_from_drift, hov, calculate_severity_eq_spec]

/-! ## Feedback store (src/monitoring/feedback_db.py)

The SQLite `feedback` table is a list of rows plus the AUTOINCREMENT
counter; `created_at` is an abstract day stamp (the SQL
`DATE(created_at) >= DATE(now, -N days)` window becomes
`now - days ≤ created_at`). -/

/-- One row of the `feedback` table. -/
structure FeedbackRow where
  id : ℕ
  prediction_id : ℤ
  prediction_date : String
  predicted_value : ℚ
  actual_value : ℚ
  feedback_status : String
  user_feedback : Option String
  created_at : ℤ

/-- State of the `feedback` table. -/
structure FeedbackDB where
  rows : List FeedbackRow
  next_id : ℕ

/-- Embeds `FeedbackDB.submit_feedback`: a plain INSERT — the status string is
stored exactly as passed, with no validation.  Returns the new state and
`cursor.lastrowid`. -/
def FeedbackDB.submit_feedback (db : FeedbackDB) (prediction_id : ℤ)
    (prediction_date : String) (predicted_value actual_value : ℚ)
    (feedback_status : String) (user_feedback : Option String)
    (now : ℤ) : FeedbackDB × ℕ :=
  (⟨db.rows ++ [⟨db.next_id, prediction_id, prediction_date, predicted_value,
      actual_value, feedback_status, user_feedback, now⟩], db.next_id + 1⟩,
    db.next_id)

/-- The dictionary returned by `FeedbackDB.get_feedback_accuracy`. -/
structure AccuracyMetrics where
  total_feedback : ℕ
  correct_feedback : ℕ
  incorrect_feedback : ℕ
  uncertain_feedback : ℕ
  accuracy : ℚ
  avg_error : ℚ

/-- Embeds `FeedbackDB.get_feedback_accuracy`: the SQL `GROUP BY feedback_status`
becomes grouping over the deduplicated status list; `total`, `correct`,
`incorrect` and `uncertain` are sums of per-group counts exactly as the
pandas code computes them, and `avg_error` is the mean of the per-group
mean absolute errors. -/
def FeedbackDB.get_feedback_accuracy (db : FeedbackDB) (days now : ℤ) :
    AccuracyMetrics :=
  let window := db.rows.filter fun r => decide (now - days ≤ r.created_at)
  let statuses := (window.map fun r => r.feedback_status).dedup
  if window.isEmpty then ⟨0, 0, 0, 0, 0, 0⟩
  else
    let cnt := fun s : String =>
      (window.filter fun r => r.feedback_status == s).length
    let grp_avg_error := fun s : String =>
      let g := window.filter fun r => r.feedback_status == s
      ((g.map fun r => |r.actual_value - r.predicted_value|).sum) / g.length
    let total := (statuses.map cnt).sum
    let correct := ((statuses.filter fun s => s == "correct").map cnt).sum
    let incorrect := ((statuses.filter fun s => s == "incorrect").map cnt).sum
    let uncertain := ((statuses.filter fun s => s == "uncertain").map cnt).sum
    let avg_error := ((statuses.map grp_avg_error).sum) / statuses.length
    let accuracy := if 0 < total then (correct : ℚ) / (total : ℚ) * 100 else 0
    ⟨total, correct, incorrect, uncertain, accuracy, avg_error⟩

/-- Per-status group size equals the count of that status in the projected
status list. -/
theorem grouped_cnt_eq_count (l : List FeedbackRow) (s : String) :
    (l.filter fun r => r.feedback_status == s).length
      = (l.map fun r => r.feedback_status).count s := by
  rw [← List.countP_eq_length_filter, List.count, List.countP_map]
  rfl

/-- The grouped totals of `get_feedback_accuracy` sum to the window size. -/
theorem grouped_total_eq_length (l : List FeedbackRow) :
    (((l.map fun r => r.feedback_status).dedup).map
        (fun s => (l.filter fun r => r.feedback_status == s).length)).sum
      = l.length := by
  rw [List.map_congr_left fun s _ => grouped_cnt_eq_count l s]
  rw [List.sum_map_count_dedup_eq_length, List.length_map]

/-- The grouped sum restricted to one status equals the count of that status. -/
theorem grouped_filter_eq_count (l : List FeedbackRow) (a : String) :
    ((((l.map fun r => r.feedback_status).dedup).filter (fun s => s == a)).map
        (fun s => (l.filter fun r => r.feedback_status == s).length)).sum
      = (l.map fun r => r.feedback_status).count a := by
  rw [List.map_congr_left fun s _ => grouped_cnt_eq_count l s]
  rw [List.sum_map_count_dedup_filter_eq_countP]
  rfl

/-- Counts of three pairwise-distinct values never exceed the length. -/
theorem count_three_le (l : List String) (a b c : String) (hab : a ≠ b)
    (hac : a ≠ c) (hbc : b ≠ c) :
    l.count a + l.count b + l.count c ≤ l.length := by
  induction l with
  | nil => simp
  | cons x t ih =>
    have hx : (if (x == a) = true then 1 else 0) + (if (x == b) = true then 1 else 0)
        + (if (x == c) = true then 1 else 0) ≤ 1 := by
      by_cases hxa : x = a
      · subst hxa
        simp [beq_iff_eq, hab, hac]
      · by_cases hxb : x = b
        · subst hxb
          simp [beq_iff_eq, hxa, hbc]
        · by_cases hxc : x = c
          · subst hxc
            simp [beq_iff_eq, hxa, hxb]
          · simp [beq_iff_eq, hxa, hxb, hxc]
    simp only [List.count_cons, List.length_cons]
    omega

/-- C7: `get_feedback_accuracy` returns `accuracy = 100 * correct / total`
whenever `total > 0`, the accuracy always lies in [0, 100], the three
enumerated status counts together never exceed `total`, and an empty
window yields the all-zero record with no division fault. -/
theorem feedback_accuracy_bounds (db : FeedbackDB) (days now : ℤ) :
    (0 < (db.get_feedback_accuracy days now).total_feedback →
      (db.get_feedback_accuracy days now).accuracy =
        100 * ((db.get_feedback_accuracy days now).correct_feedback : ℚ) /
          ((db.get_feedback_accuracy days now).total_feedback : ℚ)) ∧
    0 ≤ (db.get_feedback_accuracy days now).accuracy ∧
    (db.get_feedback_accuracy days now).accuracy ≤ 100 ∧
    (db.get_feedback_accuracy days now).correct_feedback
        + (db.get_feedback_accuracy days now).incorrect_feedback
        + (db.get_feedback_accuracy days now).uncertain_feedback
      ≤ (db.get_feedback_accuracy days now).total_feedback ∧
    ((db.rows.filter fun r => decide (now - days ≤ r.created_at)).isEmpty = true →
      db.get_feedback_accuracy days now = ⟨0, 0, 0, 0, 0, 0⟩) := by
  simp only [FeedbackDB.get_feedback_accuracy]
  generalize (db.rows.filter fun r => decide (now - days ≤ r.created_at)) = w
  by_cases hempty : w.isEmpty
  · simp [hempty]
  · have hne : w ≠ [] := by
      intro h
      subst h
      simp at hempty
    have hlenpos : 0 < w.length := List.length_pos.mpr hne
    have htot := grouped_total_eq_length w
    have hcor := grouped_filter_eq_count w "correct"
    have hinc := grouped_filter_eq_count w "incorrect"
    have hunc := grouped_filter_eq_count w "uncertain"
    simp only [hempty, Bool.false_eq_true, if_false, htot, hcor, hinc, hunc,
      if_pos hlenpos]
    have hc : (w.map fun r => r.feedback_status).count "correct" ≤ w.length := by
      have := List.count_le_length "correct" (w.map fun r => r.feedback_status)
      simpa using this
    have htriple := count_three_le (w.map fun r => r.feedback_status)
      "correct" "incorrect" "uncertain" (by decide) (by decide) (by decide)
    refine ⟨?_, ?_, ?_, ?_, ?_⟩
    · intro _
      rw [div_mul_eq_mul_div, mul_comm]
    · positivity
    · have ht : (0 : ℚ) < w.length := by exact_mod_cast hlenpos
      have h1 : ((w.map fun r => r.feedback_status).count "correct" : ℚ) / w.length ≤ 1 :=
        (div_le_one ht).mpr (by exact_mod_cast hc)
      calc ((w.map fun r => r.feedback_status).count "correct" : ℚ) / w.length * 100
          ≤ 1 * 100 := mul_le_mul_of_nonneg_right h1 (by norm_num)
        _ = 100 := one_mul 100
    · simpa using htriple
    · intro h
      exact h.elim

/-- A concrete feedback store: three valid statuses plus one unvalidated
stray status, all inside the 30-day window. -/
def dbFeedbackW : FeedbackDB :=
  ⟨[⟨1, 1, "2025-01-01", 10, 12, "correct", none, 5⟩,
    ⟨2, 1, "2025-01-02", 11, 11, "correct", none, 5⟩,
    ⟨3, 1, "2025-01-03", 9, 14, "incorrect", none, 5⟩,
    ⟨4, 1, "2025-01-04", 9, 14, "bogus", none, 5⟩], 5⟩

/-- Closed witness for C7 on a concrete nonempty window. -/
theorem feedback_accuracy_bounds_witness :
    0 < (dbFeedbackW.get_feedback_accuracy 30 10).total_feedback ∧
    (dbFeedbackW.get_feedback_accuracy 30 10).accuracy =
      100 * ((dbFeedbackW.get_feedback_accuracy 30 10).correct_feedback : ℚ) /
        ((dbFeedbackW.get_feedback_accuracy 30 10).total_feedback : ℚ) :=
  ⟨by decide, (feedback_accuracy_bounds dbFeedbackW 30 10).1 (by decide)⟩

/-- The status invariant from the spec: each stored status is one of the
three enumerated values. -/
def validStatus (r : FeedbackRow) : Bool :=
  r.feedback_status == "correct" || r.feedback_status == "incorrect" ||
    r.feedback_status == "uncertain"

/-- Counterexample to C9 as stated: `submit_feedback` performs no
validation, so submitting the status string "bogus" persists a row whose
status is outside the three enumerated values. -/
theorem submit_feedback_no_validation_counterexample :
    ((FeedbackDB.submit_feedback ⟨[], 1⟩ 1 "2025-01-01" 10 12 "bogus" none 0).1.rows.all
        validStatus) = false := by decide

/-- C9 (amended): `submit_feedback` appends exactly the status string passed
by the caller (no validation), so the three-value invariant is preserved only when
the submitted status is itself one of the three enumerated values. -/
theorem submit_feedback_preserves_valid (db : FeedbackDB) (prediction_id : ℤ)
    (prediction_date : String) (predicted_value actual_value : ℚ)
    (feedback_status : String) (user_feedback : Option String) (now : ℤ)
    (hs : feedback_status = "correct" ∨ feedback_status = "incorrect" ∨
      feedback_status = "uncertain")
    (hdb : db.rows.all validStatus = true) :
    ((db.submit_feedback prediction_id prediction_date predicted_value
        actual_value feedback_status user_feedback now).1.rows.map
          fun r => r.feedback_status)
        = (db.rows.map fun r => r.feedback_status) ++ [feedback_status] ∧
    (db.submit_feedback prediction_id prediction_date predicted_value
        actual_value feedback_status user_feedback now).1.rows.all validStatus
      = true := by
  constructor
  · simp [FeedbackDB.submit_feedback]
  · simp only [FeedbackDB.submit_feedback, List.all_append, Bool.and_eq_true]
    refine ⟨hdb, ?_⟩
    rcases hs with h | h | h <;> simp [validStatus, h]

/-- Closed witness for C9 (amended): submitting "correct" into an empty
store keeps the invariant. -/
theorem submit_feedback_preserves_valid_witness :
    (("correct" = "correct" ∨ "correct" = "incorrect" ∨ "correct" = "uncertain") ∧
      (FeedbackDB.rows ⟨[], 1⟩).all validStatus = true) ∧
    (((FeedbackDB.submit_feedback ⟨[], 1⟩ 1 "2025-01-01" 10 12 "correct" none 0).1.rows.map
        fun r => r.feedback_status)
        = ((FeedbackDB.rows ⟨[], 1⟩).map fun r => r.feedback_status) ++ ["correct"] ∧
      (FeedbackDB.submit_feedback ⟨[], 1⟩ 1 "2025-01-01" 10 12 "correct" none 0).1.rows.all
          validStatus = true) :=
  ⟨⟨Or.inl rfl, rfl⟩,
    submit_feedback_preserves_valid ⟨[], 1⟩ 1 "2025-01-01" 10 12 "correct" none 0
      (Or.inl rfl) rfl⟩

/-! ## Predictions store (src/monitoring/predictions_db.py)

The `predictions` table has `UNIQUE(prediction_date)` and an AUTOINCREMENT
surrogate id, so `INSERT OR REPLACE` deletes any conflicting row and
inserts a fresh row under a fresh id. -/

/-- One row of the `predictions` table (wall-clock `created_at`/`updated_at`
are not observable by the claims and are omitted). -/
structure PredictionRow where
  id : ℕ
  prediction_date : String
  archived_gb_predicted : ℚ
  savings_gb_predicted : ℚ
  archived_gb_actual : Option ℚ
  savings_gb_actual : Option ℚ

/-- State of the `predictions` table. -/
structure PredictionsDB where
  rows : List PredictionRow
  next_id : ℕ

/-- Embeds `PredictionsDB.save_prediction`: `INSERT OR REPLACE` keyed by
`prediction_date`; returns the new state and `cursor.lastrowid`. -/
def PredictionsDB.save_prediction (db : PredictionsDB) (prediction_date : String)
    (archived_gb_predicted savings_gb_predicted : ℚ)
    (archived_gb_actual savings_gb_actual : Option ℚ) : PredictionsDB × ℕ :=
  let remaining := db.rows.filter fun r => !(r.prediction_date == prediction_date)
  (⟨remaining ++ [⟨db.next_id, prediction_date, archived_gb_predicted,
      savings_gb_predicted, archived_gb_actual, savings_gb_actual⟩],
    db.next_id + 1⟩, db.next_id)

/-- Embeds `PredictionsDB.update_actual_value`: `UPDATE ... SET a = COALESCE(?, a)`
— an absent argument leaves the stored value untouched. -/
def PredictionsDB.update_actual_value (db : PredictionsDB) (prediction_date : String)
    (archived_gb_actual savings_gb_actual : Option ℚ) : PredictionsDB × Bool :=
  (⟨db.rows.map fun r =>
      if r.prediction_date == prediction_date then
        { r with
          archived_gb_actual :=
            match archived_gb_actual with
            | some v => some v
            | none => r.archived_gb_actual
          savings_gb_actual :=
            match savings_gb_actual with
            | some v => some v
            | none => r.savings_gb_actual }
      else r, db.next_id⟩, true)

/-- The stored rows for one `prediction_date` (the SELECT used to observe
row count per date). -/
def PredictionsDB.rowsFor (db : PredictionsDB) (d : String) : List PredictionRow :=
  db.rows.filter fun r => r.prediction_date == d

/-- After any `save_prediction`, the saved date holds exactly the freshly
inserted row. -/
theorem rowsFor_save (db : PredictionsDB) (d : String) (pa pb : ℚ)
    (aa sa : Option ℚ) :
    (db.save_prediction d pa pb aa sa).1.rowsFor d
      = [⟨db.next_id, d, pa, pb, aa, sa⟩] := by
  simp [PredictionsDB.save_prediction, PredictionsDB.rowsFor, List.filter_append,
    List.filter_filter]

/-- C8: saving the same prediction twice with identical arguments leaves
exactly one stored row for that date, not two. -/
theorem save_prediction_idempotent_rowcount (db : PredictionsDB) (d : String)
    (pa pb : ℚ) (aa sa : Option ℚ) :
    ((((db.save_prediction d pa pb aa sa).1).save_prediction d pa pb aa sa).1.rowsFor
        d).length = 1 := by
  rw [rowsFor_save]
  rfl

/-- C10: re-saving a date whose row already carries attached actual values
replaces the whole row: the stored actuals become exactly the newly
supplied arguments (null when omitted) and the surrogate id is a fresh one,
different from the id of the old row (given the AUTOINCREMENT invariant that all
stored ids are below `next_id`). -/
theorem save_prediction_replaces_row (db : PredictionsDB) (d : String)
    (r : PredictionRow) (pa pb : ℚ) (aa sa : Option ℚ)
    (hr : r ∈ db.rows) (_hd : r.prediction_date = d)
    (_hattached : r.archived_gb_actual.isSome = true)
    (hid : ∀ q ∈ db.rows, q.id < db.next_id) :
    (db.save_prediction d pa pb aa sa).1.rowsFor d
        = [⟨db.next_id, d, pa, pb, aa, sa⟩] ∧
    (db.save_prediction d pa pb aa sa).2 = db.next_id ∧ r.id ≠ db.next_id :=
  ⟨rowsFor_save db d pa pb aa sa, rfl, Nat.ne_of_lt (hid r hr)⟩

/-- A one-row predictions store whose row got its actuals attached through
`update_actual_value`. -/
def dbPredW : PredictionsDB :=
  (PredictionsDB.update_actual_value ⟨[⟨1, "2025-01-01", 250, 130, none, none⟩], 2⟩
    "2025-01-01" (some 260) (some 135)).1

/-- The row stored in `dbPredW`. -/
def rowPredW : PredictionRow := ⟨1, "2025-01-01", 250, 130, some 260, some 135⟩

/-- Closed witness for C10: re-saving 2025-01-01 with no actual arguments
discards the attached actuals and assigns the fresh id 2. -/
theorem save_prediction_replaces_row_witness :
    (rowPredW ∈ dbPredW.rows ∧ rowPredW.prediction_date = "2025-01-01" ∧
      rowPredW.archived_gb_actual.isSome = true) ∧
    ((dbPredW.save_prediction "2025-01-01" 255 140 none none).1.rowsFor "2025-01-01"
        = [⟨dbPredW.next_id, "2025-01-01", 255, 140, none, none⟩] ∧
      (dbPredW.save_prediction "2025-01-01" 255 140 none none).2 = dbPredW.next_id ∧
      rowPredW.id ≠ dbPredW.next_id) :=
  ⟨⟨by simp [dbPredW, rowPredW, PredictionsDB.update_actual_value], rfl, rfl⟩,
    save_prediction_replaces_row dbPredW "2025-01-01" rowPredW 255 140 none none
      (by simp [dbPredW, rowPredW, PredictionsDB.update_actual_value]) rfl rfl
      (by simp [dbPredW, PredictionsDB.update_actual_value])⟩
